import Mathlib

/-!
# Verification of go-githubauth token sources

Shallow embedding of the `githubauth` Go package (GitHub App JWT source,
installation token source, personal access token source, internal GitHub
API client, and the oauth2 reuse/caching wrapper around the sources).

Time instants and durations are modelled as `Int` nanoseconds, matching
Go's `time.Duration`/`time.Time` arithmetic; the Go zero `time.Time`
(used by oauth2 to mean "never expires") is modelled as the value `0`.
External effects (RSA signing, JSON decoding, the HTTP round trip) are
modelled by explicit function parameters holding their outcome, so every
definition stays executable.
-/

namespace Githubauth

/-- One second in nanoseconds, as in Go's `time.Second`. -/
def second : Int := 1000000000

/-- One minute in nanoseconds, as in Go's `time.Minute`. -/
def minute : Int := 60 * second

/-- `DefaultApplicationTokenExpiration = 10 * time.Minute` (auth.go). -/
def DefaultApplicationTokenExpiration : Int := 10 * minute

/-- `bearerTokenType = "Bearer"` (auth.go). -/
def bearerTokenType : String := "Bearer"

/-- Model of `oauth2.Token`: access token string, token type and expiry
instant (`0` models the Go zero `time.Time`, i.e. no expiry). -/
structure Token where
  accessToken : String
  tokenType : String
  expiry : Int
  deriving Repr, DecidableEq

/-- Abstract stand-in for `*rsa.PrivateKey`; its bits are never inspected
by the code under verification (signing is modelled separately). -/
structure RSAPrivateKey where
  deriving Repr, DecidableEq

/-- Model of `jwt.RegisteredClaims` as populated by the app token source:
`iat`, `exp` and `iss`. -/
structure RegisteredClaims where
  issuedAt : Int
  expiresAt : Int
  issuer : String
  deriving Repr, DecidableEq

/-- The `Identifier` generic constraint of `auth.go`: an App ID (`int64`)
or a Client ID (`string`). -/
inductive Identifier where
  | int64 (v : Int)
  | str (v : String)
  deriving Repr, DecidableEq

/-- The string form of an identifier, as computed by the `switch` in
`NewApplicationTokenSource` (`strconv.FormatInt v 10` for `int64`,
identity for `string`). -/
def Identifier.string : Identifier → String
  | .int64 v => toString v
  | .str v => v

/-- Zero-value check of the `switch` in `NewApplicationTokenSource`:
`v == 0` for `int64`, `v == ""` for `string`. -/
def Identifier.isZeroValue : Identifier → Bool
  | .int64 v => v == 0
  | .str v => v == ""

/-- Model of the `applicationTokenSource` struct (auth.go). -/
structure applicationTokenSource where
  issuer : String
  privateKey : RSAPrivateKey
  expiration : Int
  deriving Repr, DecidableEq

/-- `ApplicationTokenOpt` — functional option on `applicationTokenSource`. -/
def ApplicationTokenOpt := applicationTokenSource → applicationTokenSource

/-- `WithApplicationTokenExpiration` (auth.go): clamps out-of-range
lifetimes (`exp > 10min` or `exp ≤ 0`) to the 10-minute default. -/
def WithApplicationTokenExpiration (exp : Int) : ApplicationTokenOpt :=
  fun a =>
    let e :=
      if exp > DefaultApplicationTokenExpiration ∨ exp ≤ 0 then
        DefaultApplicationTokenExpiration
      else exp
    { a with expiration := e }

/-- `NewApplicationTokenSource` (auth.go). The PEM private-key parse
(`jwt.ParseRSAPrivateKeyFromPEM`, external library code) is modelled by
its outcome `keyParse`. Identifier switch, zero-value validation, default
expiration and option application follow the source. The Go function
wraps the result in `oauth2.ReuseTokenSource`; the wrapper is modelled
separately (see `acquire`). -/
def NewApplicationTokenSource (id : Identifier)
    (keyParse : Except String RSAPrivateKey)
    (opts : List ApplicationTokenOpt) : Except String applicationTokenSource :=
  if id.isZeroValue then
    .error "application identifier is required"
  else
    match keyParse with
    | .error e => .error e
    | .ok privKey =>
      let t : applicationTokenSource :=
        { issuer := id.string
          privateKey := privKey
          expiration := DefaultApplicationTokenExpiration }
      .ok (opts.foldl (fun a opt => opt a) t)

/-- The claims built by `applicationTokenSource.Token` (auth.go):
`now := time.Now().Add(-60 * time.Second)`, `expiresAt := now.Add(t.expiration)`,
issuer taken from the source. `now0` is the wall-clock instant. -/
def applicationTokenSource.claims (t : applicationTokenSource)
    (now0 : Int) : RegisteredClaims :=
  let now := now0 - 60 * second
  { issuedAt := now, expiresAt := now + t.expiration, issuer := t.issuer }

/-- `applicationTokenSource.Token` (auth.go). RS256 signing
(`token.SignedString`, external library code) is modelled by its outcome
`sign`; on success the oauth2 token carries the signed string, the
Bearer type and the claims' expiry. -/
def applicationTokenSource.Token (t : applicationTokenSource)
    (sign : RegisteredClaims → Except String String)
    (now0 : Int) : Except String Token :=
  match sign (t.claims now0) with
  | .error e => .error e
  | .ok s =>
    .ok { accessToken := s
          tokenType := bearerTokenType
          expiry := (t.claims now0).expiresAt }

/-- Model of the `personalAccessTokenSource` struct (auth.go). -/
structure personalAccessTokenSource where
  token : String
  deriving Repr, DecidableEq

/-- `NewPersonalAccessTokenSource` (auth.go): stores the token with no
validation; the Go function cannot return an error. -/
def NewPersonalAccessTokenSource (token : String) : personalAccessTokenSource :=
  { token := token }

/-- `personalAccessTokenSource.Token` (auth.go): empty stored token
errors; otherwise the exact string is returned as a Bearer token with
zero expiry (the Go struct literal leaves `Expiry` at its zero value). -/
def personalAccessTokenSource.Token (t : personalAccessTokenSource) :
    Except String Token :=
  if t.token = "" then
    .error "token not provided"
  else
    .ok { accessToken := t.token, tokenType := bearerTokenType, expiry := 0 }

/-! ## Internal GitHub API client (github.go) -/

/-- Model of `InstallationPermissions` (github.go): every field is an
optional permission level string. -/
structure InstallationPermissions where
  actions : Option String := none
  administration : Option String := none
  checks : Option String := none
  contents : Option String := none
  contentReferences : Option String := none
  deployments : Option String := none
  environments : Option String := none
  issues : Option String := none
  metadata : Option String := none
  packages : Option String := none
  pages : Option String := none
  pullRequests : Option String := none
  repositoryAnnouncementBanners : Option String := none
  repositoryHooks : Option String := none
  repositoryProjects : Option String := none
  secretScanningAlerts : Option String := none
  secrets : Option String := none
  securityEvents : Option String := none
  singleFile : Option String := none
  statuses : Option String := none
  vulnerabilityAlerts : Option String := none
  workflows : Option String := none
  members : Option String := none
  organizationAdministration : Option String := none
  organizationCustomRoles : Option String := none
  organizationAnnouncementBanners : Option String := none
  organizationHooks : Option String := none
  organizationPlan : Option String := none
  organizationProjects : Option String := none
  organizationPackages : Option String := none
  organizationSecrets : Option String := none
  organizationSelfHostedRunners : Option String := none
  organizationUserBlocking : Option String := none
  teamDiscussions : Option String := none
  deriving Repr, DecidableEq

/-- Model of `Repository` (github.go). -/
structure Repository where
  id : Option Int := none
  name : Option String := none
  deriving Repr, DecidableEq

/-- Model of `InstallationToken` (github.go): the parsed JSON of a
successful create-installation-token response. -/
structure InstallationToken where
  token : String
  expiresAt : Int
  permissions : Option InstallationPermissions := none
  repositories : List Repository := []
  deriving Repr, DecidableEq

/-- Model of `InstallationTokenOptions` (github.go). -/
structure InstallationTokenOptions where
  repositories : List String := []
  repositoryIDs : List Int := []
  permissions : Option InstallationPermissions := none
  deriving Repr, DecidableEq

/-- The fragment of Go's `net/url.URL` exercised by github.go: scheme,
host and path (no query, fragment or user info occurs here). -/
structure URL where
  scheme : String
  host : String
  path : String
  deriving Repr, DecidableEq

/-- `URL.String` for the fragment modelled by `URL`. -/
def URL.string (u : URL) : String :=
  u.scheme ++ "://" ++ u.host ++ u.path

/-- Model of the `githubClient` struct (github.go); the `*http.Client`
field is transport plumbing and carries no verified state. -/
structure githubClient where
  baseURL : URL
  deriving Repr, DecidableEq

/-- `newGitHubClient` (github.go): parses `defaultBaseURL =
"https://api.github.com/"` into the stored base URL. -/
def newGitHubClient : githubClient :=
  { baseURL := { scheme := "https", host := "api.github.com", path := "/" } }

/-- `githubClient.withEnterpriseURL` (github.go): given the outcome of
`url.Parse(baseURL)` (external standard-library code, modelled by its
result), a parse failure is wrapped in an error and a parsed URL is
stored verbatim as the new base URL — nothing else is changed or
normalized. -/
def githubClient.withEnterpriseURL (c : githubClient)
    (parse : Except String URL) : Except String githubClient :=
  match parse with
  | .error e => .error ("failed to parse base URL: " ++ e)
  | .ok base => .ok { c with baseURL := base }

/-- Whether a string's first character is `'/'` (kernel-reducible
replacement for `String.startsWith "/"` on the inputs occurring here). -/
def startsWithSlash (s : String) : Bool :=
  match s.toList with
  | [] => false
  | c :: _ => c == '/'

/-- The prefix of `s` up to and including its last `'/'` (empty when `s`
has no slash) — Go's `base[:strings.LastIndex(base, "/")+1]`. -/
def dropAfterLastSlash (s : String) : String :=
  (((s.toList.reverse).dropWhile (fun c => c ≠ '/')).reverse).asString

/-- Go `net/url`'s `resolvePath(base, ref)` restricted to references
without `"."`/`".."` segments (none occur in github.go): an empty
reference keeps the base, an absolute reference replaces it, a relative
reference replaces everything after the base's last slash; the result is
rooted with a leading `'/'`. -/
def resolvePath (base ref : String) : String :=
  let full :=
    if ref = "" then base
    else if startsWithSlash ref then ref
    else dropAfterLastSlash base ++ ref
  if full = "" then ""
  else if startsWithSlash full then full
  else "/" ++ full

/-- The endpoint string built by `createInstallationToken` (github.go):
`fmt.Sprintf("app/installations/%d/access_tokens", installationID)`. -/
def createInstallationTokenEndpoint (installationID : Int) : String :=
  "app/installations/" ++ toString installationID ++ "/access_tokens"

/-- The effective request URL of `createInstallationToken` (github.go):
`c.baseURL.Parse(endpoint)`, i.e. relative-reference resolution of the
endpoint against the stored base URL, rendered as a string. -/
def githubClient.requestURL (c : githubClient) (installationID : Int) : String :=
  URL.string
    { scheme := c.baseURL.scheme
      host := c.baseURL.host
      path := resolvePath c.baseURL.path (createInstallationTokenEndpoint installationID) }

/-- Errors produced by the response-handling tail of
`createInstallationToken` (github.go): a non-200/201 status wrapped with
the raw body, or a JSON decode failure on a success status. -/
inductive GitHubError where
  | statusError (status : Nat) (body : String)
  | decodeError
  deriving Repr, DecidableEq

/-- The response handling of `createInstallationToken` (github.go,
after the HTTP round trip): statuses other than 200/201 yield an error
carrying status and raw body; otherwise the body is JSON-decoded
(`json.NewDecoder(...).Decode`, external code modelled by the `decode`
parameter), failure yielding a decode error and success the parsed
token. -/
def handleCreateInstallationTokenResponse
    (decode : String → Option InstallationToken)
    (status : Nat) (body : String) : Except GitHubError InstallationToken :=
  if status ≠ 200 ∧ status ≠ 201 then
    .error (.statusError status body)
  else
    match decode body with
    | none => .error .decodeError
    | some t => .ok t

/-! ## Installation token source (auth.go) -/

/-- Model of the `installationTokenSource` struct (auth.go); the
context, upstream token source and HTTP transport fields are runtime
plumbing and carry no state the verified logic reads. -/
structure installationTokenSource where
  id : Int
  client : githubClient
  opts : Option InstallationTokenOptions
  deriving Repr, DecidableEq

/-- `InstallationTokenSourceOpt` — functional option on
`installationTokenSource`. -/
def InstallationTokenSourceOpt := installationTokenSource → installationTokenSource

/-- `WithInstallationTokenOptions` (auth.go): stores the options. -/
def WithInstallationTokenOptions (o : InstallationTokenOptions) :
    InstallationTokenSourceOpt :=
  fun i => { i with opts := some o }

/-- `WithEnterpriseURLs` (auth.go): applies the client's
enterprise-URL reconfiguration (library code modelled by the `apply`
parameter, a function of the current client); on error the option
returns with the source unchanged, otherwise the reconfigured client is
stored. -/
def WithEnterpriseURLs (apply : githubClient → Except String githubClient) :
    InstallationTokenSourceOpt :=
  fun i =>
    match apply i.client with
    | .error _ => i
    | .ok c => { i with client := c }

/-- `NewInstallationTokenSource` (auth.go): builds the source with the
given installation ID, a fresh default client and no options, then
applies the functional options. No validation of the ID is performed and
the Go function has no error return. The Go function wraps the result in
`oauth2.ReuseTokenSource`; the wrapper is modelled separately (see
`acquire`). -/
def NewInstallationTokenSource (id : Int)
    (opts : List InstallationTokenSourceOpt) : installationTokenSource :=
  opts.foldl (fun i opt => opt i)
    { id := id, client := newGitHubClient, opts := none }

/-- `installationTokenSource.Token` (auth.go): calls
`CreateInstallationToken` with the stored id and options (the HTTP call
is modelled by its outcome function `api`); an error is returned
unchanged with no token, a success is repackaged as a Bearer oauth2
token carrying the response's token string and expiry. -/
def installationTokenSource.Token (t : installationTokenSource)
    (api : Int → Option InstallationTokenOptions → Except GitHubError InstallationToken) :
    Except GitHubError Token :=
  match api t.id t.opts with
  | .error e => .error e
  | .ok tok =>
    .ok { accessToken := tok.token
          tokenType := bearerTokenType
          expiry := tok.expiresAt }

/-! ## Reuse/caching wrapper -/

/-- Modelled from the spec: the Reuse/Caching Wrapper of spec §4.5
(`oauth2.ReuseTokenSource`, a dependency whose source is not part of
this repository). A cached credential is still valid when its expiry is
the zero value (never expires) or the current time is before the
expiry. -/
def reuseValid (c : Token) (now : Int) : Bool :=
  c.expiry == 0 || now < c.expiry

/-- Outcome of one wrapper acquisition: the returned credential or
error, the new cached state, and how many underlying generate calls were
made (0 or 1). -/
structure AcquireResult where
  result : Except String Token
  cache : Option Token
  calls : Nat
  deriving Repr

/-- Modelled from the spec: one `Acquire()` of the Reuse/Caching Wrapper
(spec §4.5 state machine; `oauth2.ReuseTokenSource.Token`, dependency
code not in this repository). Empty cache: generate, cache on success,
stay empty on failure. Valid cache: return the cached credential with no
underlying call. Stale cache: behave as empty. -/
def acquire (gen : Int → Except String Token) (cache : Option Token)
    (now : Int) : AcquireResult :=
  match cache with
  | some c =>
    if reuseValid c now then
      { result := .ok c, cache := some c, calls := 0 }
    else
      match gen now with
      | .ok c2 => { result := .ok c2, cache := some c2, calls := 1 }
      | .error e => { result := .error e, cache := none, calls := 1 }
  | none =>
    match gen now with
    | .ok c2 => { result := .ok c2, cache := some c2, calls := 1 }
    | .error e => { result := .error e, cache := none, calls := 1 }

/-- Sequential `Acquire()` calls at the given list of instants: the list
of returned results, the final cached state and the total number of
underlying generate calls. -/
def acquireSeq (gen : Int → Except String Token) (cache : Option Token) :
    List Int → List (Except String Token) × Option Token × Nat
  | [] => ([], cache, 0)
  | t :: ts =>
    let r := acquire gen cache t
    let (rs, c, n) := acquireSeq gen r.cache ts
    (r.result :: rs, c, r.calls + n)

/-! ## Helper lemmas -/

/-- While every call instant finds the cached credential valid, a run of
sequential acquisitions returns the cached credential every time and
never calls the underlying source. -/
theorem acquireSeq_valid_cache (gen : Int → Except String Token) (c : Token) :
    ∀ ts : List Int, (∀ t ∈ ts, reuseValid c t = true) →
      acquireSeq gen (some c) ts
        = (List.replicate ts.length (Except.ok c), some c, 0)
  | [], _ => rfl
  | t :: ts, h => by
    have hv : reuseValid c t = true := h t (by simp)
    have ih := acquireSeq_valid_cache gen c ts (fun x hx => h x (by simp [hx]))
    simp [acquireSeq, acquire, hv, ih, List.replicate_succ]

/-! ## Claim theorems -/

/-- C1: for every source wrapped by the reuse/caching wrapper, a cached
credential whose expiry is zero or still ahead of the current time is
returned without invoking the underlying source; N sequential `Acquire`
calls whose instants all fall inside the credential's validity window
perform exactly one underlying generate call and return N identical
credentials. -/
theorem reuse_wrapper_single_call_within_validity
    (gen : Int → Except String Token) (c : Token) (t0 now : Int) (ts : List Int)
    (h0 : gen t0 = .ok c)
    (hv : ∀ t ∈ ts, reuseValid c t = true)
    (hn : reuseValid c now = true) :
    acquireSeq gen none (t0 :: ts)
      = (List.replicate (ts.length + 1) (Except.ok c), some c, 1) ∧
    acquire gen (some c) now = { result := .ok c, cache := some c, calls := 0 } := by
  constructor
  · have h1 : acquire gen none t0
        = { result := .ok c, cache := some c, calls := 1 } := by
      simp [acquire, h0]
    simp [acquireSeq, h1, acquireSeq_valid_cache gen c ts hv, List.replicate_succ]
  · simp [acquire, hn]

/-- Witness for C1 at a concrete generator and call schedule. -/
theorem reuse_wrapper_single_call_within_validity_witness :
    acquireSeq (fun _ => Except.ok { accessToken := "tkn", tokenType := "Bearer", expiry := 100 })
        none [0, 10, 20]
      = (List.replicate 3
          (Except.ok { accessToken := "tkn", tokenType := "Bearer", expiry := 100 }),
         some { accessToken := "tkn", tokenType := "Bearer", expiry := 100 }, 1) ∧
    acquire (fun _ => Except.ok { accessToken := "tkn", tokenType := "Bearer", expiry := 100 })
        (some { accessToken := "tkn", tokenType := "Bearer", expiry := 100 }) 50
      = { result := Except.ok { accessToken := "tkn", tokenType := "Bearer", expiry := 100 },
          cache := some { accessToken := "tkn", tokenType := "Bearer", expiry := 100 },
          calls := 0 } :=
  reuse_wrapper_single_call_within_validity
    (fun _ => Except.ok { accessToken := "tkn", tokenType := "Bearer", expiry := 100 })
    { accessToken := "tkn", tokenType := "Bearer", expiry := 100 }
    0 50 [10, 20] rfl (by decide) (by decide)

/-- C2: a valid application token source issues JWTs whose issuer is the
string form of the configured identity, whose issued-at is the current
time minus 60 seconds and whose expires-at is issued-at plus the clamped
configured lifetime; lifetimes over 10 minutes or non-positive are
clamped to exactly the 10-minute default by the expiration option. -/
theorem application_token_claims_and_clamping
    (id : Identifier) (k : RSAPrivateKey) (e now : Int)
    (sign : RegisteredClaims → Except String String) (s : String)
    (t : applicationTokenSource)
    (h : NewApplicationTokenSource id (.ok k) [WithApplicationTokenExpiration e] = .ok t)
    (hs : sign (t.claims now) = .ok s) :
    (t.claims now).issuer = id.string ∧
    (t.claims now).issuedAt = now - 60 * second ∧
    (t.claims now).expiresAt = (t.claims now).issuedAt + t.expiration ∧
    t.expiration
      = (if e > DefaultApplicationTokenExpiration ∨ e ≤ 0 then
          DefaultApplicationTokenExpiration
        else e) ∧
    ((e > DefaultApplicationTokenExpiration ∨ e ≤ 0) →
      t.expiration = DefaultApplicationTokenExpiration) ∧
    t.Token sign now
      = .ok { accessToken := s, tokenType := bearerTokenType,
              expiry := (t.claims now).expiresAt } := by
  by_cases hz : id.isZeroValue = true
  · simp [NewApplicationTokenSource, hz] at h
  · simp [NewApplicationTokenSource, hz, List.foldl] at h
    subst h
    refine ⟨rfl, rfl, by simp [applicationTokenSource.claims], ?_, ?_, ?_⟩
    · rfl
    · intro h'
      simp [WithApplicationTokenExpiration, if_pos h']
    · simp [applicationTokenSource.Token, hs]

/-- Witness for C2 at identity 12345 and an out-of-range 15-minute
lifetime. -/
theorem application_token_claims_and_clamping_witness :
    ((({ issuer := "12345", privateKey := {}, expiration := DefaultApplicationTokenExpiration }
        : applicationTokenSource).claims 0).issuer = Identifier.string (.int64 12345) ∧
     (({ issuer := "12345", privateKey := {}, expiration := DefaultApplicationTokenExpiration }
        : applicationTokenSource).claims 0).issuedAt = 0 - 60 * second ∧
     (({ issuer := "12345", privateKey := {}, expiration := DefaultApplicationTokenExpiration }
        : applicationTokenSource).claims 0).expiresAt
       = (({ issuer := "12345", privateKey := {}, expiration := DefaultApplicationTokenExpiration }
            : applicationTokenSource).claims 0).issuedAt
         + ({ issuer := "12345", privateKey := {}, expiration := DefaultApplicationTokenExpiration }
            : applicationTokenSource).expiration ∧
     ({ issuer := "12345", privateKey := {}, expiration := DefaultApplicationTokenExpiration }
        : applicationTokenSource).expiration
       = (if 15 * minute > DefaultApplicationTokenExpiration ∨ (15 * minute : Int) ≤ 0 then
            DefaultApplicationTokenExpiration
          else 15 * minute) ∧
     ((15 * minute > DefaultApplicationTokenExpiration ∨ (15 * minute : Int) ≤ 0) →
       ({ issuer := "12345", privateKey := {}, expiration := DefaultApplicationTokenExpiration }
          : applicationTokenSource).expiration = DefaultApplicationTokenExpiration) ∧
     applicationTokenSource.Token
        { issuer := "12345", privateKey := {}, expiration := DefaultApplicationTokenExpiration }
        (fun _ => .ok "signed-jwt") 0
       = .ok { accessToken := "signed-jwt", tokenType := bearerTokenType,
               expiry := (({ issuer := "12345", privateKey := {},
                             expiration := DefaultApplicationTokenExpiration }
                           : applicationTokenSource).claims 0).expiresAt }) :=
  application_token_claims_and_clamping (.int64 12345) {} (15 * minute) 0
    (fun _ => .ok "signed-jwt") "signed-jwt"
    { issuer := "12345", privateKey := {}, expiration := DefaultApplicationTokenExpiration }
    rfl rfl

/-- C3: the personal access token source fails with an error and no
credential when the stored token is empty, and for every non-empty
stored token (whitespace included) returns exactly that string as a
Bearer credential with zero expiry on every call. -/
theorem personal_access_token_behavior (tok : String) :
    (tok = "" →
      (NewPersonalAccessTokenSource tok).Token = .error "token not provided") ∧
    (tok ≠ "" →
      (NewPersonalAccessTokenSource tok).Token
        = .ok { accessToken := tok, tokenType := bearerTokenType, expiry := 0 }) := by
  constructor
  · intro h
    simp [NewPersonalAccessTokenSource, personalAccessTokenSource.Token, h]
  · intro h
    simp [NewPersonalAccessTokenSource, personalAccessTokenSource.Token, h]

/-- Witness for C3 at the empty token and a whitespace-only token. -/
theorem personal_access_token_behavior_witness :
    (NewPersonalAccessTokenSource "").Token = .error "token not provided" ∧
    (NewPersonalAccessTokenSource "   ").Token
      = .ok { accessToken := "   ", tokenType := bearerTokenType, expiry := 0 } :=
  ⟨(personal_access_token_behavior "").1 rfl,
   (personal_access_token_behavior "   ").2 (by decide)⟩

/-- C4: the API client's response handling returns an error carrying the
status code and raw body for every status other than 200/201, a decode
error when a 200/201 body fails to parse, and the parsed installation
token with no error otherwise. -/
theorem create_installation_token_response_handling
    (decode : String → Option InstallationToken) (status : Nat) (body : String) :
    (¬(status = 200 ∨ status = 201) →
      handleCreateInstallationTokenResponse decode status body
        = .error (.statusError status body)) ∧
    ((status = 200 ∨ status = 201) → decode body = none →
      handleCreateInstallationTokenResponse decode status body
        = .error .decodeError) ∧
    (∀ t, (status = 200 ∨ status = 201) → decode body = some t →
      handleCreateInstallationTokenResponse decode status body = .ok t) := by
  refine ⟨?_, ?_, ?_⟩
  · intro h
    have hc : status ≠ 200 ∧ status ≠ 201 := by tauto
    simp [handleCreateInstallationTokenResponse, hc]
  · intro h hd
    have hc : ¬(status ≠ 200 ∧ status ≠ 201) := by tauto
    simp [handleCreateInstallationTokenResponse, hc, hd]
  · intro t h hd
    have hc : ¬(status ≠ 200 ∧ status ≠ 201) := by tauto
    simp [handleCreateInstallationTokenResponse, hc, hd]

/-- Witness for C4 at status 500 (error), status 201 with an
undecodable body, and status 200 with a decodable body. -/
theorem create_installation_token_response_handling_witness :
    handleCreateInstallationTokenResponse (fun _ => none) 500 "boom"
      = .error (.statusError 500 "boom") ∧
    handleCreateInstallationTokenResponse (fun _ => none) 201 "bad json"
      = .error .decodeError ∧
    handleCreateInstallationTokenResponse
        (fun _ => some { token := "tkn-1", expiresAt := 100 }) 200 "good json"
      = .ok { token := "tkn-1", expiresAt := 100 } :=
  ⟨(create_installation_token_response_handling (fun _ => none) 500 "boom").1
      (by decide),
   (create_installation_token_response_handling (fun _ => none) 201 "bad json").2.1
      (Or.inr rfl) rfl,
   (create_installation_token_response_handling
      (fun _ => some { token := "tkn-1", expiresAt := 100 }) 200 "good json").2.2
      { token := "tkn-1", expiresAt := 100 } (Or.inl rfl) rfl⟩

/-- C5 (evaluation at the failing input): `withEnterpriseURL` stores a
parsed base URL verbatim, so a base without a path — here
`https://ghes.example.com` — yields the request URL
`https://ghes.example.com/app/installations/42/access_tokens` with no
`/api/v3` prefix, and a base whose path is `/api/v3` yields
`https://example.com/api/app/installations/42/access_tokens`, dropping
the `v3` segment — both contradicting the documented and tested
enterprise URL convention. -/
theorem enterprise_url_effective_request_paths :
    githubClient.withEnterpriseURL newGitHubClient
        (.ok { scheme := "https", host := "ghes.example.com", path := "" })
      = .ok { baseURL := { scheme := "https", host := "ghes.example.com", path := "" } } ∧
    githubClient.requestURL
        { baseURL := { scheme := "https", host := "ghes.example.com", path := "" } } 42
      = "https://ghes.example.com/app/installations/42/access_tokens" ∧
    githubClient.requestURL
        { baseURL := { scheme := "https", host := "example.com", path := "/api/v3" } } 42
      = "https://example.com/api/app/installations/42/access_tokens" :=
  ⟨rfl, by decide, by decide⟩

/-- C6: the installation token source's `Token` repackages a successful
create-installation-token response as a Bearer credential carrying the
response's token string and expiry, and returns a failing API call's
error unchanged with no credential. -/
theorem installation_token_from_response
    (t : installationTokenSource)
    (api : Int → Option InstallationTokenOptions → Except GitHubError InstallationToken) :
    (∀ tok, api t.id t.opts = .ok tok →
      t.Token api
        = .ok { accessToken := tok.token, tokenType := bearerTokenType,
                expiry := tok.expiresAt }) ∧
    (∀ e, api t.id t.opts = .error e → t.Token api = .error e) := by
  constructor
  · intro tok h
    simp [installationTokenSource.Token, h]
  · intro e h
    simp [installationTokenSource.Token, h]

/-- Witness for C6 at a concrete source, one succeeding API outcome and
one failing API outcome. -/
theorem installation_token_from_response_witness :
    installationTokenSource.Token (NewInstallationTokenSource 7 [])
        (fun _ _ => .ok { token := "inst-tok", expiresAt := 3600 })
      = .ok { accessToken := "inst-tok", tokenType := bearerTokenType, expiry := 3600 } ∧
    installationTokenSource.Token (NewInstallationTokenSource 7 [])
        (fun _ _ => .error (.statusError 500 "boom"))
      = .error (.statusError 500 "boom") :=
  ⟨(installation_token_from_response (NewInstallationTokenSource 7 [])
      (fun _ _ => .ok { token := "inst-tok", expiresAt := 3600 })).1
      { token := "inst-tok", expiresAt := 3600 } rfl,
   (installation_token_from_response (NewInstallationTokenSource 7 [])
      (fun _ _ => .error (.statusError 500 "boom"))).2
      (.statusError 500 "boom") rfl⟩

/-- C7 (counterexample): the empty static token is not surfaced at
construction — `NewPersonalAccessTokenSource ""` returns an ordinary
source holding the empty token (the Go constructor has no error return),
and the configuration error only appears when `Token()` is called. -/
theorem personal_token_empty_not_rejected_at_construction :
    NewPersonalAccessTokenSource "" = { token := "" } ∧
    (NewPersonalAccessTokenSource "").Token = .error "token not provided" :=
  ⟨rfl, rfl⟩

/-- C7 (amended): zero/empty identity and an unparseable signing key are
surfaced as errors by `NewApplicationTokenSource` before any `Token`
call; the static token source's constructor never fails, and its empty
token error is surfaced at the first `Token()` call instead. -/
theorem construction_error_surfacing
    (k : Except String RSAPrivateKey) (opts : List ApplicationTokenOpt)
    (msg : String) (tok : String) (id : Identifier)
    (hnz : id.isZeroValue = false) :
    NewApplicationTokenSource (.int64 0) k opts
      = .error "application identifier is required" ∧
    NewApplicationTokenSource (.str "") k opts
      = .error "application identifier is required" ∧
    NewApplicationTokenSource id (.error msg) opts = .error msg ∧
    NewPersonalAccessTokenSource tok = { token := tok } ∧
    (NewPersonalAccessTokenSource "").Token = .error "token not provided" := by
  refine ⟨rfl, rfl, ?_, rfl, rfl⟩
  simp [NewApplicationTokenSource, hnz]

/-- Witness for the amended C7 at identity 12345, a failed key parse and
a whitespace static token. -/
theorem construction_error_surfacing_witness :
    NewApplicationTokenSource (.int64 0) (.error "bad key") []
      = .error "application identifier is required" ∧
    NewApplicationTokenSource (.str "") (.error "bad key") []
      = .error "application identifier is required" ∧
    NewApplicationTokenSource (.int64 12345) (.error "bad key") []
      = .error "bad key" ∧
    NewPersonalAccessTokenSource "   " = { token := "   " } ∧
    (NewPersonalAccessTokenSource "").Token = .error "token not provided" :=
  construction_error_surfacing (.error "bad key") [] "bad key" "   "
    (.int64 12345) (by decide)

/-- C9: installation source construction never fails and validates
nothing — for every `int64` installation ID, zero and negatives
included, `NewInstallationTokenSource` returns the source storing
exactly that ID with the default client and no options. -/
theorem new_installation_token_source_total (id : Int) :
    NewInstallationTokenSource id []
      = { id := id, client := newGitHubClient, opts := none } :=
  rfl

/-- C10: when the enterprise-URL reconfiguration of the underlying
client fails, the `WithEnterpriseURLs` option is a silent no-op — the
source keeps its previously configured client state unchanged — while a
successful reconfiguration replaces the client. -/
theorem with_enterprise_urls_silent_noop
    (i : installationTokenSource)
    (apply : githubClient → Except String githubClient) (e : String)
    (h : apply i.client = .error e) :
    WithEnterpriseURLs apply i = i := by
  simp [WithEnterpriseURLs, h]

/-- Witness for C10 at a concrete source and an always-failing
reconfiguration. -/
theorem with_enterprise_urls_silent_noop_witness :
    WithEnterpriseURLs (fun _ => .error "invalid URL")
        (NewInstallationTokenSource 1 [])
      = NewInstallationTokenSource 1 [] :=
  with_enterprise_urls_silent_noop (NewInstallationTokenSource 1 [])
    (fun _ => .error "invalid URL") "invalid URL" rfl

end Githubauth
